import Mathlib

/-!
Shallow embedding of the Lovable-Clone agent pipeline
(src/agent/graph.py and src/agent/prompts.py).

The repository imports two modules, `states` and `tools`, whose source is
not part of the repository snapshot; their data shapes and the file tools
are modelled from the specification (marked `Modelled from the spec:` on
each such definition).  Everything else is translated from graph.py and
prompts.py.

Python exceptions are modelled with `Except PyError`; the external
language-model backend is modelled as oracle functions passed in as
parameters; the filesystem is a partial map `String → Option String`.
Side effects performed directly by the coder role (its own file read and
its model-backend call) are recorded in an explicit effect log.
-/

/-- Python exceptions raised by the pipeline, as values. -/
inductive PyError where
  | keyError (key : String)
  | valueError (msg : String)
deriving DecidableEq, Repr

/-- Modelled from the spec: the `states` module is not in the repository
snapshot.  Per spec section 3, a Plan is a list of file-level descriptions
(file and description) produced by the planner. -/
structure Plan where
  files : List (String × String)
deriving DecidableEq, Repr

/-- Modelled from the spec: `ImplementationStep` from the missing `states`
module; spec section 3 gives the shape
filepath : string, task_description : string.  Field names follow the
accesses in graph.py (current_task.filepath, current_task.task_description). -/
structure ImplementationStep where
  filepath : String
  task_description : String
deriving DecidableEq, Repr

/-- Modelled from the spec: `TaskPlan` from the missing `states` module;
an ordered sequence of implementation steps.  Field name follows
graph.py's access coder_state.task_plan.implementation_steps. -/
structure TaskPlan where
  implementation_steps : List ImplementationStep
deriving DecidableEq, Repr

/-- Modelled from the spec: `CoderState` from the missing `states` module;
spec section 3: a TaskPlan plus a progress cursor current_step_idx ≥ 0. -/
structure CoderState where
  task_plan : TaskPlan
  current_step_idx : Nat
deriving DecidableEq, Repr

/-- The shared pipeline state dict accumulating the keys
user_prompt, plan, task_plan, coder_state, status; an absent key is `none`. -/
structure PipelineState where
  user_prompt : Option String
  plan : Option Plan
  task_plan : Option TaskPlan
  coder_state : Option CoderState
  status : Option String
deriving DecidableEq, Repr

/-- The empty state dict (no keys present). -/
def PipelineState.empty : PipelineState :=
  { user_prompt := none, plan := none, task_plan := none,
    coder_state := none, status := none }

/-- Result of `create_react_agent(...).invoke`: a transcript of messages.
Only its non-nullness is ever inspected by graph.py. -/
structure AgentResult where
  messages : List String
deriving DecidableEq, Repr

/-- Direct side effects of one coder-role invocation. -/
inductive Effect where
  | fileRead (path : String)
  | modelCall
deriving DecidableEq, Repr

/-- Modelled from the spec: the `tools` module is not in the repository
snapshot.  Spec section 4.4: read(path) returns the file contents as text,
or an empty result if the path does not exist, and must not raise for a
missing file.  The filesystem is the partial map `fs`. -/
def read_file (fs : String → Option String) (path : String) : String :=
  (fs path).getD ""

/- prompts.py -/

/-- plan_prompt from prompts.py, lines 1-8. -/
def plan_prompt (user_prompt : String) : String :=
  "\nYou are the PLANNER agent. Convert the user prompt into a COMPLETE engineering project plan.\n\nUser request:\n"
    ++ user_prompt ++ "\n    "

/-- architect_prompt from prompts.py, lines 11-28. -/
def architect_prompt (plan : String) : String :=
  "\nYou are the ARCHITECT agent. Given this project plan, break it down into explicit engineering tasks.\n\nRULES:\n- For each FILE in the plan, create one or more IMPLEMENTATION TASKS.\n- In each task description:\n    * Specify exactly what to implement.\n    * Name the variables, functions, classes, and components to be defined.\n    * Mention how this task depends on or will be used by previous tasks.\n    * Include integration details: imports, expected function signatures, data flow.\n- Order tasks so that dependencies are implemented first.\n- Each step must be SELF-CONTAINED but also carry FORWARD the relevant context from earlier tasks.\n\nProject Plan:\n"
    ++ plan ++ "\n    "

/-- coder_system_prompt from prompts.py, lines 30-48 (apostrophes escaped). -/
def coder_system_prompt : String :=
  "\nYou are the CODER agent.\nYou are implementing a specific engineering task.\n\nAVAILABLE TOOLS (use EXACT names):\n- read_file(path: str) - Reads content from a file\n- write_file(path: str, content: str) - Writes content to a file\n- list_files(directory: str) - Lists all files in a directory (NOTE: it\x27s \x27list_files\x27 not \x27list_file\x27)\n- get_current_directory() - Returns the current working directory\n\nAlways:\n- Use the EXACT tool names above. Do not use variations like \x27list_file\x27 - use \x27list_files\x27.\n- Review all existing files to maintain compatibility.\n- Implement the FULL file content, integrating with other modules.\n- Maintain consistent naming of variables, functions, and imports.\n- When a module is imported from another file, ensure it exists and is implemented as described.\n    "

/-- Modelled from the spec: pydantic's model_dump_json on the spec-modelled
Plan record (architectAgent serializes the plan before prompting; since Plan
has model_dump_json, the hasattr branch in graph.py line 23 is always taken). -/
def model_dump_json (p : Plan) : String :=
  "\x7b \x22files\x22: ["
    ++ String.intercalate ", "
        (p.files.map (fun f => "\x22" ++ f.1 ++ " : " ++ f.2 ++ "\x22"))
    ++ "] \x7d"

/- graph.py role functions -/

/-- Partial state update returned by plannerAgent: exactly the key plan. -/
structure PlannerUpdate where
  plan : Plan
deriving DecidableEq, Repr

/-- Partial state update returned by architectAgent: exactly the keys
task_plan and plan. -/
structure ArchitectUpdate where
  task_plan : TaskPlan
  plan : Plan
deriving DecidableEq, Repr

/-- Partial state update returned by coderAgent: the key coder_state,
and the key status when present (`none` models an absent status key). -/
structure CoderUpdate where
  coder_state : CoderState
  status : Option String
deriving DecidableEq, Repr

/-- plannerAgent from graph.py, lines 12-17.  `llm` is the model-backend
oracle for a structured Plan; state["user_prompt"] raises KeyError when the
key is absent. -/
def plannerAgent (llm : String → Option Plan) (state : PipelineState) :
    Except PyError PlannerUpdate :=
  match state.user_prompt with
  | none => .error (.keyError "user_prompt")
  | some up =>
    match llm (plan_prompt up) with
    | none => .error (.valueError "Planner agent failed to generate a valid response for Planner Agent")
    | some response => .ok { plan := response }

/-- architectAgent from graph.py, lines 20-27.  `llm` is the model-backend
oracle for a structured TaskPlan. -/
def architectAgent (llm : String → Option TaskPlan) (state : PipelineState) :
    Except PyError ArchitectUpdate :=
  match state.plan with
  | none => .error (.keyError "plan")
  | some plan =>
    let plan_str := model_dump_json plan
    match llm (architect_prompt plan_str) with
    | none => .error (.valueError "Architect agent failed to generate a valid response for Architect Agent")
    | some response => .ok { task_plan := response, plan := plan }

/-- The user prompt assembled by coderAgent, graph.py lines 43-48. -/
def coder_user_prompt (current_task : ImplementationStep) (existing_content : String) : String :=
  "Task: " ++ current_task.task_description ++ "\n"
    ++ "File: " ++ current_task.filepath ++ "\n"
    ++ "Existing content:\n" ++ existing_content ++ "\n"
    ++ "Use write_file(path, content) to save your changes."

/-- Body of coderAgent (graph.py lines 34-57) applied to the resolved
coder state: the terminal check, the file read, the react-agent call bound
to the file tools (oracle `inv`), the null check, and the cursor advance.
Returns the partial update together with the log of direct effects. -/
def coderStep (fs : String → Option String)
    (inv : String → String → Option AgentResult)
    (coder_state : CoderState) :
    Except PyError (CoderUpdate × List Effect) :=
  let steps := coder_state.task_plan.implementation_steps
  let current_step_index := coder_state.current_step_idx
  if h : steps.length ≤ current_step_index then
    .ok ({ coder_state := coder_state, status := some "DONE" }, [])
  else
    let current_task := steps.get ⟨current_step_index, Nat.lt_of_not_le h⟩
    let existing_content := read_file fs current_task.filepath
    let user_prompt := coder_user_prompt current_task existing_content
    match inv coder_system_prompt user_prompt with
    | none => .error (.valueError "Coder agent failed to generate a valid response for Coder Agent")
    | some _ =>
      .ok ({ coder_state := { coder_state with current_step_idx := current_step_index + 1 },
             status := none },
           [Effect.fileRead current_task.filepath, Effect.modelCall])

/-- coderAgent from graph.py, lines 29-57: resolve coder_state
(state.get returns none when absent; a fresh CoderState with cursor 0 is
built from state["task_plan"], which raises KeyError when absent), then
run the step body. -/
def coderAgent (fs : String → Option String)
    (inv : String → String → Option AgentResult)
    (state : PipelineState) :
    Except PyError (CoderUpdate × List Effect) :=
  match state.coder_state with
  | some coder_state => coderStep fs inv coder_state
  | none =>
    match state.task_plan with
    | none => .error (.keyError "task_plan")
    | some task_plan => coderStep fs inv { task_plan := task_plan, current_step_idx := 0 }

/-- The coder state an invocation of coderAgent effectively operates on:
the state's coder_state if present, else a fresh one with cursor 0 built
from the state's task_plan. -/
def inputCoderState (state : PipelineState) : Option CoderState :=
  match state.coder_state with
  | some cs => some cs
  | none => state.task_plan.map (fun tp => { task_plan := tp, current_step_idx := 0 })

/- graph.py graph construction, lines 64-80 -/

/-- Target of a routed edge: a named node or the END marker. -/
inductive GraphTarget where
  | node (name : String)
  | endMarker
deriving DecidableEq, Repr

/-- Nodes added in graph.py, lines 65-67. -/
def graphNodes : List String := ["plan", "architect", "coder"]

/-- Entry point set in graph.py, line 69. -/
def graphEntryPoint : String := "plan"

/-- Unconditional edges added in graph.py, lines 72-73. -/
def graphUnconditionalEdges : List (String × String) :=
  [("plan", "architect"), ("architect", "coder")]

/-- The routing lambda of the conditional edge, graph.py line 76:
label "END" when the merged state's status key equals "DONE", else "coder". -/
def coderRouter (s : PipelineState) : String :=
  if s.status = some "DONE" then "END" else "coder"

/-- The label-to-target mapping of the conditional edge, graph.py line 77. -/
def coderEdgeMap (label : String) : Option GraphTarget :=
  if label = "END" then some GraphTarget.endMarker
  else if label = "coder" then some (GraphTarget.node "coder")
  else none

/-- Where the graph goes after a coder invocation with merged state s. -/
def coderRoute (s : PipelineState) : Option GraphTarget :=
  coderEdgeMap (coderRouter s)

/- Executor semantics (LangGraph merge of partial updates into the dict
state; a key absent from the update leaves the state's value unchanged). -/

/-- Merge plannerAgent's update {plan} into the state. -/
def applyPlannerUpdate (s : PipelineState) (u : PlannerUpdate) : PipelineState :=
  { s with plan := some u.plan }

/-- Merge architectAgent's update {task_plan, plan} into the state. -/
def applyArchitectUpdate (s : PipelineState) (u : ArchitectUpdate) : PipelineState :=
  { s with task_plan := some u.task_plan, plan := some u.plan }

/-- Merge coderAgent's update {coder_state} or {coder_state, status} into
the state; an absent status key leaves the state's status untouched. -/
def applyCoderUpdate (s : PipelineState) (u : CoderUpdate) : PipelineState :=
  { s with coder_state := some u.coder_state,
           status := match u.status with
                     | some v => some v
                     | none => s.status }

/-- The coder self-loop run by the graph executor: invoke coderAgent, merge
its update, follow the conditional edge; repeat until the END marker.
`fuel` bounds the recursion (LangGraph's recursion limit); returns the
number of coder invocations performed together with the outcome. -/
def coderLoop (fs : String → Option String)
    (inv : String → String → Option AgentResult) :
    Nat → PipelineState → Nat × Except PyError PipelineState
  | 0, _ => (0, .error (.valueError "GraphRecursionError"))
  | fuel + 1, s =>
    match coderAgent fs inv s with
    | .error e => (1, .error e)
    | .ok (u, _) =>
      let s2 := applyCoderUpdate s u
      if coderRoute s2 = some GraphTarget.endMarker then (1, .ok s2)
      else
        let r := coderLoop fs inv fuel s2
        (r.1 + 1, r.2)

/-- One full pipeline run: from the entry point plan, through the
unconditional edges to architect and coder, then the coder loop.  Returns
the list of role invocations performed (in order) and the outcome. -/
def runPipeline (llmPlan : String → Option Plan)
    (llmArchitect : String → Option TaskPlan)
    (fs : String → Option String)
    (inv : String → String → Option AgentResult)
    (fuel : Nat) (user_prompt : String) :
    List String × Except PyError PipelineState :=
  let init : PipelineState :=
    { PipelineState.empty with user_prompt := some user_prompt }
  match plannerAgent llmPlan init with
  | .error e => (["plan"], .error e)
  | .ok u1 =>
    let s1 := applyPlannerUpdate init u1
    match architectAgent llmArchitect s1 with
    | .error e => (["plan", "architect"], .error e)
    | .ok u2 =>
      let s2 := applyArchitectUpdate s1 u2
      let r := coderLoop fs inv fuel s2
      (["plan", "architect"] ++ List.replicate r.1 "coder", r.2)

/- graph.py module top level, lines 82-86 -/

/-- The embedded request string, graph.py line 82 (spelled with the
transposition "claculator" in the source). -/
def mainUserPrompt : String := "Create a simple claculator web app"

/-- The input mapping of the single agent.invoke call, graph.py line 84:
only the user_prompt key. -/
def mainInvokeInput : PipelineState :=
  { PipelineState.empty with user_prompt := some mainUserPrompt }

/-- The pipeline invocations performed by the script's top level: exactly
one, with mainInvokeInput (graph.py line 84). -/
def mainPipelineInvocations : List PipelineState := [mainInvokeInput]

/-- What the script prints (graph.py line 86): the outcome of the single
pipeline run on the embedded request string. -/
def mainPrintedResult (llmPlan : String → Option Plan)
    (llmArchitect : String → Option TaskPlan)
    (fs : String → Option String)
    (inv : String → String → Option AgentResult)
    (fuel : Nat) : List String × Except PyError PipelineState :=
  runPipeline llmPlan llmArchitect fs inv fuel mainUserPrompt

/- Sample instances used by the witness theorems. -/

/-- A sample implementation step. -/
def sampleStep : ImplementationStep :=
  { filepath := "main.py", task_description := "write the app entry point" }

/-- A second sample implementation step. -/
def sampleStepB : ImplementationStep :=
  { filepath := "util.py", task_description := "write helper functions" }

/-- A one-step sample task plan. -/
def sampleTaskPlan : TaskPlan := { implementation_steps := [sampleStep] }

/-- A two-step sample task plan. -/
def sampleTaskPlan2 : TaskPlan := { implementation_steps := [sampleStep, sampleStepB] }

/-- A filesystem with no files. -/
def sampleFS : String → Option String := fun _ => none

/-- A react-agent oracle that always answers. -/
def sampleInv : String → String → Option AgentResult :=
  fun _ _ => some { messages := ["ok"] }

/-- A planner oracle that always answers. -/
def sampleLLMPlan : String → Option Plan :=
  fun _ => some { files := [("main.py", "the app")] }

/-- An architect oracle that always answers with the two-step plan. -/
def sampleLLMArchitect : String → Option TaskPlan :=
  fun _ => some sampleTaskPlan2

/- Helper lemmas -/

/-- coderAgent runs the step body on the effectively resolved coder state. -/
lemma coderAgent_eq_step (fs : String → Option String)
    (inv : String → String → Option AgentResult)
    (state : PipelineState) (cs : CoderState)
    (hcs : inputCoderState state = some cs) :
    coderAgent fs inv state = coderStep fs inv cs := by
  unfold inputCoderState at hcs
  unfold coderAgent
  cases h : state.coder_state with
  | some cs0 =>
    rw [h] at hcs
    simp only [Option.some.injEq] at hcs
    rw [hcs]
  | none =>
    rw [h] at hcs
    cases htp : state.task_plan with
    | none => rw [htp] at hcs; simp at hcs
    | some tp =>
      rw [htp] at hcs
      simp only [Option.map_some', Option.some.injEq] at hcs
      rw [← hcs]

/-- Terminal step: cursor at or past the step count returns the DONE
update, unchanged coder state, and performs no effects. -/
lemma coderStep_terminal (fs : String → Option String)
    (inv : String → String → Option AgentResult) (cs : CoderState)
    (hge : cs.task_plan.implementation_steps.length ≤ cs.current_step_idx) :
    coderStep fs inv cs = .ok ({ coder_state := cs, status := some "DONE" }, []) := by
  unfold coderStep
  rw [dif_pos hge]

/-- Non-terminal step with a non-null backend answer: the cursor advances
by one, no status key, one file read and one model call. -/
lemma coderStep_nonterminal (fs : String → Option String)
    (inv : String → String → Option AgentResult) (cs : CoderState)
    (hlt : cs.current_step_idx < cs.task_plan.implementation_steps.length)
    (r : AgentResult)
    (hr : inv coder_system_prompt
        (coder_user_prompt (cs.task_plan.implementation_steps.get ⟨cs.current_step_idx, hlt⟩)
          (read_file fs (cs.task_plan.implementation_steps.get ⟨cs.current_step_idx, hlt⟩).filepath))
        = some r) :
    coderStep fs inv cs =
      .ok ({ coder_state := { cs with current_step_idx := cs.current_step_idx + 1 },
             status := none },
           [Effect.fileRead (cs.task_plan.implementation_steps.get ⟨cs.current_step_idx, hlt⟩).filepath,
            Effect.modelCall]) := by
  unfold coderStep
  rw [dif_neg (Nat.not_le.mpr hlt)]
  simp only [hr]

/-- Non-terminal step with a null backend answer: a ValueError is raised. -/
lemma coderStep_null (fs : String → Option String)
    (inv : String → String → Option AgentResult) (cs : CoderState)
    (hlt : cs.current_step_idx < cs.task_plan.implementation_steps.length)
    (hr : inv coder_system_prompt
        (coder_user_prompt (cs.task_plan.implementation_steps.get ⟨cs.current_step_idx, hlt⟩)
          (read_file fs (cs.task_plan.implementation_steps.get ⟨cs.current_step_idx, hlt⟩).filepath))
        = none) :
    coderStep fs inv cs =
      .error (.valueError "Coder agent failed to generate a valid response for Coder Agent") := by
  unfold coderStep
  rw [dif_neg (Nat.not_le.mpr hlt)]
  simp only [hr]

/-- C2: when the coder state's cursor is at or past the number of steps,
coderAgent returns exactly the DONE update with the coder state unchanged
(cursor not advanced) and an empty effect log (no file read, no
model-backend call), for every filesystem and every backend oracle. -/
theorem C2_coder_terminal (fs : String → Option String)
    (inv : String → String → Option AgentResult)
    (state : PipelineState) (cs : CoderState)
    (hcs : state.coder_state = some cs)
    (hge : cs.task_plan.implementation_steps.length ≤ cs.current_step_idx) :
    coderAgent fs inv state = .ok ({ coder_state := cs, status := some "DONE" }, []) := by
  unfold coderAgent
  rw [hcs]
  exact coderStep_terminal fs inv cs hge

/-- Witness for C2 at a concrete terminal state. -/
theorem C2_coder_terminal_witness :
    coderAgent sampleFS sampleInv
      { PipelineState.empty with
          coder_state := some { task_plan := sampleTaskPlan, current_step_idx := 1 } }
      = .ok ({ coder_state := { task_plan := sampleTaskPlan, current_step_idx := 1 },
               status := some "DONE" }, []) :=
  C2_coder_terminal sampleFS sampleInv _ _ rfl (by decide)

/-- C1: on a non-terminal invocation (cursor strictly below the step
count) with a non-null backend, the returned coder state's cursor is the
input cursor plus one, it does not exceed the step count, and the update
has no status key; the immediately following invocation on the merged
state emits the DONE signal exactly when the advanced cursor has reached
the step count, never before. -/
theorem C1_coder_cursor_advance (fs : String → Option String)
    (inv : String → String → Option AgentResult)
    (state : PipelineState) (cs : CoderState)
    (hcs : inputCoderState state = some cs)
    (hlt : cs.current_step_idx < cs.task_plan.implementation_steps.length)
    (htot : ∀ sp up, (inv sp up).isSome) :
    ∃ u effs, coderAgent fs inv state = .ok (u, effs) ∧
      u.coder_state.current_step_idx = cs.current_step_idx + 1 ∧
      u.coder_state.current_step_idx ≤ cs.task_plan.implementation_steps.length ∧
      u.status = none ∧
      ∃ u2 effs2, coderAgent fs inv (applyCoderUpdate state u) = .ok (u2, effs2) ∧
        (u2.status = some "DONE" ↔
          cs.current_step_idx + 1 = cs.task_plan.implementation_steps.length) := by
  obtain ⟨r, hr⟩ := Option.isSome_iff_exists.mp (htot coder_system_prompt
    (coder_user_prompt (cs.task_plan.implementation_steps.get ⟨cs.current_step_idx, hlt⟩)
      (read_file fs (cs.task_plan.implementation_steps.get ⟨cs.current_step_idx, hlt⟩).filepath)))
  have hstep := coderStep_nonterminal fs inv cs hlt r hr
  have hagent := (coderAgent_eq_step fs inv state cs hcs).trans hstep
  set cs' : CoderState := { cs with current_step_idx := cs.current_step_idx + 1 } with hcsdef
  refine ⟨_, _, hagent, rfl, hlt, rfl, ?_⟩
  have hmerged : (applyCoderUpdate state
      { coder_state := cs', status := none }).coder_state = some cs' := rfl
  have hagent2 : coderAgent fs inv (applyCoderUpdate state { coder_state := cs', status := none })
      = coderStep fs inv cs' := by
    unfold coderAgent
    rw [hmerged]
  by_cases hdone : cs.current_step_idx + 1 = cs.task_plan.implementation_steps.length
  · have hge : cs'.task_plan.implementation_steps.length ≤ cs'.current_step_idx :=
      le_of_eq hdone.symm
    refine ⟨_, _, hagent2.trans (coderStep_terminal fs inv cs' hge), ?_⟩
    simpa using hdone
  · have hlt2 : cs'.current_step_idx < cs'.task_plan.implementation_steps.length :=
      lt_of_le_of_ne hlt (by simpa [hcsdef] using hdone)
    obtain ⟨r2, hr2⟩ := Option.isSome_iff_exists.mp (htot coder_system_prompt
      (coder_user_prompt (cs'.task_plan.implementation_steps.get ⟨cs'.current_step_idx, hlt2⟩)
        (read_file fs (cs'.task_plan.implementation_steps.get ⟨cs'.current_step_idx, hlt2⟩).filepath)))
    refine ⟨_, _, hagent2.trans (coderStep_nonterminal fs inv cs' hlt2 r2 hr2), ?_⟩
    simp [hdone]

/-- Witness for C1 at a concrete non-terminal state (cursor 0 of a
two-step plan). -/
theorem C1_coder_cursor_advance_witness :
    ∃ u effs, coderAgent sampleFS sampleInv
        { PipelineState.empty with
            coder_state := some { task_plan := sampleTaskPlan2, current_step_idx := 0 } }
        = .ok (u, effs) ∧
      u.coder_state.current_step_idx = 0 + 1 ∧
      u.coder_state.current_step_idx ≤ sampleTaskPlan2.implementation_steps.length ∧
      u.status = none ∧
      ∃ u2 effs2, coderAgent sampleFS sampleInv
          (applyCoderUpdate
            { PipelineState.empty with
                coder_state := some { task_plan := sampleTaskPlan2, current_step_idx := 0 } } u)
          = .ok (u2, effs2) ∧
        (u2.status = some "DONE" ↔ 0 + 1 = sampleTaskPlan2.implementation_steps.length) :=
  C1_coder_cursor_advance sampleFS sampleInv _
    { task_plan := sampleTaskPlan2, current_step_idx := 0 }
    rfl (by decide) (fun _ _ => rfl)

/-- Merging the terminal DONE update a second time changes nothing. -/
lemma applyCoderUpdate_done_fixpoint (state : PipelineState) (cs : CoderState) :
    applyCoderUpdate (applyCoderUpdate state { coder_state := cs, status := some "DONE" })
        { coder_state := cs, status := some "DONE" }
      = applyCoderUpdate state { coder_state := cs, status := some "DONE" } := rfl

/-- C6: invoking the coder role on a state whose cursor is at or past the
task-plan length is idempotent: the first invocation and every repetition
on the successively merged states return the identical DONE update with an
empty effect log, and the coder state - hence the task plan with all its
filepaths and task descriptions - is never changed. -/
theorem C6_coder_done_idempotent (fs : String → Option String)
    (inv : String → String → Option AgentResult)
    (state : PipelineState) (cs : CoderState)
    (hcs : state.coder_state = some cs)
    (hge : cs.task_plan.implementation_steps.length ≤ cs.current_step_idx) :
    coderAgent fs inv state = .ok ({ coder_state := cs, status := some "DONE" }, []) ∧
    (∀ k : Nat,
      coderAgent fs inv
          ((fun t => applyCoderUpdate t { coder_state := cs, status := some "DONE" })^[k]
            (applyCoderUpdate state { coder_state := cs, status := some "DONE" }))
        = .ok ({ coder_state := cs, status := some "DONE" }, [])) ∧
    cs.task_plan = cs.task_plan := by
  have hfirst : coderAgent fs inv state
      = .ok ({ coder_state := cs, status := some "DONE" }, []) := by
    unfold coderAgent
    rw [hcs]
    exact coderStep_terminal fs inv cs hge
  have hfix : ∀ k : Nat,
      (fun t => applyCoderUpdate t { coder_state := cs, status := some "DONE" })^[k]
          (applyCoderUpdate state { coder_state := cs, status := some "DONE" })
        = applyCoderUpdate state { coder_state := cs, status := some "DONE" } := by
    intro k
    induction k with
    | zero => rfl
    | succ k ih =>
      rw [Function.iterate_succ_apply', ih]
      exact applyCoderUpdate_done_fixpoint state cs
  refine ⟨hfirst, fun k => ?_, rfl⟩
  rw [hfix k]
  have hcs2 : (applyCoderUpdate state { coder_state := cs, status := some "DONE" }).coder_state
      = some cs := rfl
  unfold coderAgent
  rw [hcs2]
  exact coderStep_terminal fs inv cs hge

/-- Witness for C6 at a concrete terminal state. -/
theorem C6_coder_done_idempotent_witness :
    coderAgent sampleFS sampleInv
        { PipelineState.empty with
            coder_state := some { task_plan := sampleTaskPlan, current_step_idx := 1 } }
      = .ok ({ coder_state := { task_plan := sampleTaskPlan, current_step_idx := 1 },
               status := some "DONE" }, []) ∧
    (∀ k : Nat,
      coderAgent sampleFS sampleInv
          ((fun t => applyCoderUpdate t
              { coder_state := { task_plan := sampleTaskPlan, current_step_idx := 1 },
                status := some "DONE" })^[k]
            (applyCoderUpdate
              { PipelineState.empty with
                  coder_state := some { task_plan := sampleTaskPlan, current_step_idx := 1 } }
              { coder_state := { task_plan := sampleTaskPlan, current_step_idx := 1 },
                status := some "DONE" }))
        = .ok ({ coder_state := { task_plan := sampleTaskPlan, current_step_idx := 1 },
                 status := some "DONE" }, [])) ∧
    sampleTaskPlan = sampleTaskPlan :=
  C6_coder_done_idempotent sampleFS sampleInv _
    { task_plan := sampleTaskPlan, current_step_idx := 1 } rfl (by decide)

/-- C9: spec-modelled file tools - reading a path that does not exist on
the filesystem does not raise and yields empty content, and reading an
existing path yields its content. -/
theorem C9_read_missing_empty (fs : String → Option String) (path : String) :
    (fs path = none → read_file fs path = "") ∧
    (∀ c, fs path = some c → read_file fs path = c) := by
  constructor
  · intro h
    simp [read_file, h]
  · intro c h
    simp [read_file, h]

/-- Witness for C9: reading from the empty filesystem yields "". -/
theorem C9_read_missing_empty_witness :
    read_file sampleFS "app/index.html" = "" :=
  (C9_read_missing_empty sampleFS "app/index.html").1 rfl

/-- C7: when the state has a plan and the backend answers with a task
plan, architectAgent returns exactly the update with that task_plan and
the input plan passed through unchanged. -/
theorem C7_architect_passthrough (llm : String → Option TaskPlan)
    (state : PipelineState) (pl : Plan) (tp : TaskPlan)
    (hpl : state.plan = some pl)
    (hllm : llm (architect_prompt (model_dump_json pl)) = some tp) :
    architectAgent llm state = .ok { task_plan := tp, plan := pl } := by
  unfold architectAgent
  rw [hpl]
  simp only [hllm]

/-- Witness for C7 at a concrete plan and oracle. -/
theorem C7_architect_passthrough_witness :
    architectAgent sampleLLMArchitect
        { PipelineState.empty with plan := some { files := [("main.py", "the app")] } }
      = .ok { task_plan := sampleTaskPlan2, plan := { files := [("main.py", "the app")] } } :=
  C7_architect_passthrough sampleLLMArchitect _ { files := [("main.py", "the app")] }
    sampleTaskPlan2 rfl rfl

/-- C4: the graph's entry point is plan, the unconditional edges are
plan→architect and architect→coder, and after a coder invocation the
conditional edge reaches the END marker exactly when the merged state's
status key equals "DONE", and otherwise loops back to the coder node. -/
theorem C4_graph_topology :
    graphEntryPoint = "plan" ∧
    graphUnconditionalEdges = [("plan", "architect"), ("architect", "coder")] ∧
    ∀ s : PipelineState,
      (coderRoute s = some GraphTarget.endMarker ↔ s.status = some "DONE") ∧
      (¬ s.status = some "DONE" → coderRoute s = some (GraphTarget.node "coder")) := by
  refine ⟨rfl, rfl, fun s => ⟨?_, ?_⟩⟩
  · unfold coderRoute coderRouter coderEdgeMap
    by_cases h : s.status = some "DONE" <;> simp [h]
  · intro h
    unfold coderRoute coderRouter coderEdgeMap
    simp [h]

/-- Witness for C4: a state without the DONE status routes back to coder,
one with it routes to END. -/
theorem C4_graph_topology_witness :
    coderRoute { PipelineState.empty with status := some "DONE" }
        = some GraphTarget.endMarker ∧
    coderRoute PipelineState.empty = some (GraphTarget.node "coder") :=
  ⟨((C4_graph_topology.2.2 { PipelineState.empty with status := some "DONE" }).1).mpr rfl,
   (C4_graph_topology.2.2 PipelineState.empty).2 (by simp [PipelineState.empty])⟩

/-- C10: with an empty task plan and no coder state yet, the first coder
invocation builds the fresh CoderState with cursor 0 and immediately
returns the DONE update with no effects, and the coder loop ends after
exactly one invocation. -/
theorem C10_empty_plan (fs : String → Option String)
    (inv : String → String → Option AgentResult)
    (state : PipelineState) (tp : TaskPlan) (fuel : Nat)
    (hcs : state.coder_state = none)
    (htp : state.task_plan = some tp)
    (hnil : tp.implementation_steps = [])
    (hfuel : 1 ≤ fuel) :
    coderAgent fs inv state
      = .ok ({ coder_state := { task_plan := tp, current_step_idx := 0 },
               status := some "DONE" }, []) ∧
    (coderLoop fs inv fuel state).1 = 1 ∧
    ∃ fin, (coderLoop fs inv fuel state).2 = .ok fin := by
  have hge : tp.implementation_steps.length ≤ 0 := by rw [hnil]; exact le_refl 0
  have hagent : coderAgent fs inv state
      = .ok ({ coder_state := { task_plan := tp, current_step_idx := 0 },
               status := some "DONE" }, []) := by
    unfold coderAgent
    rw [hcs, htp]
    exact coderStep_terminal fs inv { task_plan := tp, current_step_idx := 0 } hge
  refine ⟨hagent, ?_⟩
  obtain ⟨f, rfl⟩ : ∃ f, fuel = f + 1 := ⟨fuel - 1, by omega⟩
  unfold coderLoop
  rw [hagent]
  simp only [coderRoute, coderRouter, coderEdgeMap, applyCoderUpdate]
  simp

/-- Witness for C10 at a concrete empty task plan. -/
theorem C10_empty_plan_witness :
    coderAgent sampleFS sampleInv
        { PipelineState.empty with task_plan := some { implementation_steps := [] } }
      = .ok ({ coder_state := { task_plan := { implementation_steps := [] },
                                current_step_idx := 0 },
               status := some "DONE" }, []) ∧
    (coderLoop sampleFS sampleInv 1
        { PipelineState.empty with task_plan := some { implementation_steps := [] } }).1 = 1 ∧
    ∃ fin, (coderLoop sampleFS sampleInv 1
        { PipelineState.empty with task_plan := some { implementation_steps := [] } }).2
      = .ok fin :=
  C10_empty_plan sampleFS sampleInv _ { implementation_steps := [] } 1
    rfl rfl rfl (le_refl 1)

/-- Counting the coder loop: from a state whose effective coder state has
k steps left and no DONE status, with a backend that always answers and
enough fuel, the loop performs exactly k + 1 coder invocations and ends
normally. -/
lemma coderLoop_count (fs : String → Option String)
    (inv : String → String → Option AgentResult)
    (htot : ∀ sp up, (inv sp up).isSome) :
    ∀ (k fuel : Nat) (s : PipelineState) (cs : CoderState),
      inputCoderState s = some cs →
      s.status = none →
      cs.task_plan.implementation_steps.length = cs.current_step_idx + k →
      k + 1 ≤ fuel →
      (coderLoop fs inv fuel s).1 = k + 1 ∧
      ∃ fin, (coderLoop fs inv fuel s).2 = .ok fin := by
  intro k
  induction k with
  | zero =>
    intro fuel s cs hcs hst hlen hfuel
    obtain ⟨f, rfl⟩ : ∃ f, fuel = f + 1 := ⟨fuel - 1, by omega⟩
    have hge : cs.task_plan.implementation_steps.length ≤ cs.current_step_idx := by omega
    have hagent : coderAgent fs inv s
        = .ok ({ coder_state := cs, status := some "DONE" }, []) :=
      (coderAgent_eq_step fs inv s cs hcs).trans (coderStep_terminal fs inv cs hge)
    unfold coderLoop
    rw [hagent]
    simp [coderRoute, coderRouter, coderEdgeMap, applyCoderUpdate]
  | succ k ih =>
    intro fuel s cs hcs hst hlen hfuel
    obtain ⟨f, rfl⟩ : ∃ f, fuel = f + 1 := ⟨fuel - 1, by omega⟩
    have hlt : cs.current_step_idx < cs.task_plan.implementation_steps.length := by omega
    obtain ⟨r, hr⟩ := Option.isSome_iff_exists.mp (htot coder_system_prompt
      (coder_user_prompt (cs.task_plan.implementation_steps.get ⟨cs.current_step_idx, hlt⟩)
        (read_file fs (cs.task_plan.implementation_steps.get ⟨cs.current_step_idx, hlt⟩).filepath)))
    have hagent : coderAgent fs inv s
        = .ok ({ coder_state := { cs with current_step_idx := cs.current_step_idx + 1 },
                 status := none },
               [Effect.fileRead
                  (cs.task_plan.implementation_steps.get ⟨cs.current_step_idx, hlt⟩).filepath,
                Effect.modelCall]) :=
      (coderAgent_eq_step fs inv s cs hcs).trans (coderStep_nonterminal fs inv cs hlt r hr)
    have hs2status : (applyCoderUpdate s
        { coder_state := { cs with current_step_idx := cs.current_step_idx + 1 },
          status := none }).status = none := by
      simp [applyCoderUpdate, hst]
    have hroute : coderRoute (applyCoderUpdate s
        { coder_state := { cs with current_step_idx := cs.current_step_idx + 1 },
          status := none }) = some (GraphTarget.node "coder") := by
      unfold coderRoute coderRouter coderEdgeMap
      rw [hs2status]
      simp
    have hih := ih f
      (applyCoderUpdate s
        { coder_state := { cs with current_step_idx := cs.current_step_idx + 1 },
          status := none })
      { cs with current_step_idx := cs.current_step_idx + 1 }
      rfl hs2status (by simp; omega) (by omega)
    obtain ⟨hcount, fin, hfin⟩ := hih
    have hloop : coderLoop fs inv (f + 1) s
        = ((coderLoop fs inv f
              (applyCoderUpdate s
                { coder_state := { cs with current_step_idx := cs.current_step_idx + 1 },
                  status := none })).1 + 1,
           (coderLoop fs inv f
              (applyCoderUpdate s
                { coder_state := { cs with current_step_idx := cs.current_step_idx + 1 },
                  status := none })).2) := by
      simp [coderLoop, hagent, hroute]
    rw [hloop]
    exact ⟨by rw [hcount], fin, hfin⟩

/-- C3: from the post-architect state (no coder state yet, a task plan
with n steps, no status key), with a backend that always answers and
enough fuel, the coder loop performs exactly n + 1 coder invocations
(n processing plus one terminal DONE check) and reaches the end marker. -/
theorem C3_coder_invocation_count (fs : String → Option String)
    (inv : String → String → Option AgentResult)
    (fuel : Nat) (s : PipelineState) (tp : TaskPlan)
    (htot : ∀ sp up, (inv sp up).isSome)
    (hcs : s.coder_state = none)
    (htp : s.task_plan = some tp)
    (hst : s.status = none)
    (hfuel : tp.implementation_steps.length + 1 ≤ fuel) :
    (coderLoop fs inv fuel s).1 = tp.implementation_steps.length + 1 ∧
    ∃ fin, (coderLoop fs inv fuel s).2 = .ok fin := by
  have hics : inputCoderState s = some { task_plan := tp, current_step_idx := 0 } := by
    unfold inputCoderState
    rw [hcs, htp]
    rfl
  exact coderLoop_count fs inv htot tp.implementation_steps.length fuel s
    { task_plan := tp, current_step_idx := 0 } hics hst (by simp) hfuel

/-- Witness for C3: the two-step sample plan takes exactly 3 coder
invocations. -/
theorem C3_coder_invocation_count_witness :
    (coderLoop sampleFS sampleInv 3
        { PipelineState.empty with task_plan := some sampleTaskPlan2 }).1 = 3 ∧
    ∃ fin, (coderLoop sampleFS sampleInv 3
        { PipelineState.empty with task_plan := some sampleTaskPlan2 }).2 = .ok fin :=
  C3_coder_invocation_count sampleFS sampleInv 3
    { PipelineState.empty with task_plan := some sampleTaskPlan2 }
    sampleTaskPlan2 (fun _ _ => rfl) rfl rfl rfl (by decide)

/-- C5: each role raises exactly when the model backend returns a null
result, otherwise returns its partial update; and on a null result the
run terminates with that error before the next role executes (the list of
executed roles stops at the failing one). -/
theorem C5_null_result_is_the_only_role_failure :
    (∀ (llm : String → Option Plan) (state : PipelineState) (up : String),
      state.user_prompt = some up →
      ((∃ e, plannerAgent llm state = .error e) ↔ llm (plan_prompt up) = none) ∧
      (∀ p, llm (plan_prompt up) = some p → plannerAgent llm state = .ok { plan := p })) ∧
    (∀ (llm : String → Option TaskPlan) (state : PipelineState) (pl : Plan),
      state.plan = some pl →
      ((∃ e, architectAgent llm state = .error e) ↔
        llm (architect_prompt (model_dump_json pl)) = none) ∧
      (∀ tp, llm (architect_prompt (model_dump_json pl)) = some tp →
        architectAgent llm state = .ok { task_plan := tp, plan := pl })) ∧
    (∀ (fs : String → Option String) (inv : String → String → Option AgentResult)
        (state : PipelineState) (cs : CoderState),
      inputCoderState state = some cs →
      (cs.task_plan.implementation_steps.length ≤ cs.current_step_idx →
        coderAgent fs inv state = .ok ({ coder_state := cs, status := some "DONE" }, [])) ∧
      (∀ h : cs.current_step_idx < cs.task_plan.implementation_steps.length,
        ((∃ e, coderAgent fs inv state = .error e) ↔
          inv coder_system_prompt
            (coder_user_prompt (cs.task_plan.implementation_steps.get ⟨cs.current_step_idx, h⟩)
              (read_file fs
                (cs.task_plan.implementation_steps.get ⟨cs.current_step_idx, h⟩).filepath))
            = none))) ∧
    (∀ (llmPlan : String → Option Plan) (llmArchitect : String → Option TaskPlan)
        (fs : String → Option String) (inv : String → String → Option AgentResult)
        (fuel : Nat) (up : String),
      (llmPlan (plan_prompt up) = none →
        runPipeline llmPlan llmArchitect fs inv fuel up
          = (["plan"],
             .error (.valueError "Planner agent failed to generate a valid response for Planner Agent"))) ∧
      (∀ p, llmPlan (plan_prompt up) = some p →
        llmArchitect (architect_prompt (model_dump_json p)) = none →
        runPipeline llmPlan llmArchitect fs inv fuel up
          = (["plan", "architect"],
             .error (.valueError "Architect agent failed to generate a valid response for Architect Agent")))) := by
  refine ⟨?_, ?_, ?_, ?_⟩
  · intro llm state up hup
    constructor
    · constructor
      · rintro ⟨e, he⟩
        cases hr : llm (plan_prompt up) with
        | none => rfl
        | some p => simp [plannerAgent, hup, hr] at he
      · intro hr
        refine ⟨.valueError "Planner agent failed to generate a valid response for Planner Agent", ?_⟩
        simp [plannerAgent, hup, hr]
    · intro p hp
      simp [plannerAgent, hup, hp]
  · intro llm state pl hpl
    constructor
    · constructor
      · rintro ⟨e, he⟩
        cases hr : llm (architect_prompt (model_dump_json pl)) with
        | none => rfl
        | some tp => simp [architectAgent, hpl, hr] at he
      · intro hr
        refine ⟨.valueError "Architect agent failed to generate a valid response for Architect Agent", ?_⟩
        simp [architectAgent, hpl, hr]
    · intro tp htp
      simp [architectAgent, hpl, htp]
  · intro fs inv state cs hcs
    constructor
    · intro hge
      exact (coderAgent_eq_step fs inv state cs hcs).trans (coderStep_terminal fs inv cs hge)
    · intro hlt
      rw [coderAgent_eq_step fs inv state cs hcs]
      constructor
      · rintro ⟨e, he⟩
        cases hr : inv coder_system_prompt
            (coder_user_prompt (cs.task_plan.implementation_steps.get ⟨cs.current_step_idx, hlt⟩)
              (read_file fs
                (cs.task_plan.implementation_steps.get ⟨cs.current_step_idx, hlt⟩).filepath)) with
        | none => rfl
        | some r => rw [coderStep_nonterminal fs inv cs hlt r hr] at he; simp at he
      · intro hr
        exact ⟨_, coderStep_null fs inv cs hlt hr⟩
  · intro llmPlan llmArchitect fs inv fuel up
    constructor
    · intro hr
      simp [runPipeline, plannerAgent, hr]
    · intro p hp hr
      simp [runPipeline, plannerAgent, architectAgent, applyPlannerUpdate, hp, hr]

/-- Witness for C5: a concrete non-null planner answer yields the plan
update, and a concrete null planner answer aborts the run right after the
planner, before the architect executes. -/
theorem C5_null_result_is_the_only_role_failure_witness :
    plannerAgent sampleLLMPlan
        { PipelineState.empty with user_prompt := some "make an app" }
      = .ok { plan := { files := [("main.py", "the app")] } } ∧
    runPipeline (fun _ => none) sampleLLMArchitect sampleFS sampleInv 5 "make an app"
      = (["plan"],
         .error (.valueError "Planner agent failed to generate a valid response for Planner Agent")) :=
  ⟨(C5_null_result_is_the_only_role_failure.1 sampleLLMPlan
      { PipelineState.empty with user_prompt := some "make an app" } "make an app" rfl).2
      { files := [("main.py", "the app")] } rfl,
   (C5_null_result_is_the_only_role_failure.2.2.2 (fun _ => none) sampleLLMArchitect
      sampleFS sampleInv 5 "make an app").1 rfl⟩

/-- C8 counterexample: the embedded request string of graph.py line 82 is
not "Create a simple calculator web app" - the source spells it
"claculator". -/
theorem C8_embedded_string_counterexample :
    mainUserPrompt ≠ "Create a simple calculator web app" := by
  decide

/-- C8 (amended): the script invokes the compiled pipeline exactly once,
with only the user_prompt key set to the embedded request string
"Create a simple claculator web app" (as spelled in the source), and
prints the outcome of that single run; there is no other configuration
input. -/
theorem C8_single_invocation_fixed_prompt :
    mainPipelineInvocations = [mainInvokeInput] ∧
    mainInvokeInput.user_prompt = some "Create a simple claculator web app" ∧
    mainInvokeInput.plan = none ∧
    mainInvokeInput.task_plan = none ∧
    mainInvokeInput.coder_state = none ∧
    mainInvokeInput.status = none ∧
    ∀ (llmPlan : String → Option Plan) (llmArchitect : String → Option TaskPlan)
      (fs : String → Option String) (inv : String → String → Option AgentResult)
      (fuel : Nat),
      mainPrintedResult llmPlan llmArchitect fs inv fuel
        = runPipeline llmPlan llmArchitect fs inv fuel mainUserPrompt :=
  ⟨rfl, rfl, rfl, rfl, rfl, rfl, fun _ _ _ _ _ => rfl⟩
